import Mathlib

/-!
Verification development for the telegram-chatgpt repository.

The repository is a Telegram bot front-end for the OpenAI chat API.  Its core
logic, embedded below, consists of:

* `openai_api.py`: the `MODELS` table, the token-budget history trimmer
  `build_messages_to_send`, and the request assembler `chat_completion`;
* `main.py`: the authorization challenge flow (`authorize` / `verify`), the
  conversation session lifecycle (`start_chat`, `ask_question` rollback);
* `utils.py`: `hash_data` (SHA-256), treated as an abstract function
  `h : String → String` here since the hash itself is an external primitive,
  exactly as the token counter `tiktoken` is treated as an abstract
  `counter : String → String → Nat`.

Machine integers are embedded as `Int` (Python integers are unbounded).
-/

namespace TelegramChatGPT

/-- Embeds the `OpenAIModel` namedtuple of `openai_api.py` (fields `id`,
`max_tokens`, `variants`). -/
structure OpenAIModel where
  id : String
  max_tokens : Nat
  variants : List String
deriving DecidableEq

/-- Embeds the `MODELS` table of `openai_api.py`. -/
def MODELS : List (String × OpenAIModel) :=
  [("GPT-3.5", ⟨"gpt-3.5-turbo", 4000, ["gpt-3.5-turbo-0301"]⟩),
   ("GPT-4", ⟨"gpt-4", 8000, ["gpt-4-0314"]⟩)]

/-- A chat message dictionary: `role` and `content` keys always present, an
optional `name` key.  This is the shape of every dict the repository ever
feeds to `build_messages_to_send`. -/
structure ChatMessage where
  role : String
  content : String
  name : Option String
deriving DecidableEq

/-- The key/value pairs of the message dict, in Python insertion order, as
iterated by `for key, value in message.items()`. -/
def ChatMessage.items (m : ChatMessage) : List (String × String) :=
  ("role", m.role) :: ("content", m.content) ::
    (match m.name with
     | some n => [("name", n)]
     | none => [])

/-- The `tokens_per_message` / `tokens_per_name` dispatch at the top of
`build_messages_to_send` (openai_api.py lines 56-65); `none` embeds the
`NotImplementedError` branch for an unknown model id. -/
def tokensPerMessage (id : String) : Option (Int × Int) :=
  if id = "gpt-3.5-turbo" then some (4, -1)
  else if id = "gpt-4" then some (3, 1)
  else none

/-- The total increment the inner `for key, value in message.items()` loop of
`build_messages_to_send` adds to `tokens_count` for one message, including the
leading `tokens_count += tokens_per_message`.  `tc` is
`num_tokens_from_string · model.id`. -/
def messageCost (tc : String → Nat) (tpm tpn : Int) (m : ChatMessage) : Int :=
  m.items.foldl
    (fun acc kv => acc + (tc kv.2 : Int) + (if kv.1 = "name" then tpn else 0))
    tpm

/-- The reverse-chronological trimming loop of `build_messages_to_send`
(openai_api.py lines 71-83), acting on the already-reversed message list:
add the message cost to the running count, break when
`tokens_count + max_tokens // 2 > max_tokens`, otherwise keep the message
and continue. -/
def trimRev (tc : String → Nat) (tpm tpn : Int) (maxTok : Nat) :
    Int → List ChatMessage → List ChatMessage
  | _, [] => []
  | cnt, m :: rest =>
    let cnt2 := cnt + messageCost tc tpm tpn m
    if cnt2 + ((maxTok / 2 : Nat) : Int) > (maxTok : Int) then []
    else m :: trimRev tc tpm tpn maxTok cnt2 rest

/-- Embeds `build_messages_to_send` (openai_api.py lines 54-85).  The loop
walks `reversed(messages)` with `appendleft`, which is the same as trimming
the reversed list and reversing the kept part back; `none` embeds the
`NotImplementedError` raised for an unknown model id. -/
def build_messages_to_send (counter : String → String → Nat)
    (messages : List ChatMessage) (model : OpenAIModel) :
    Option (List ChatMessage) :=
  match tokensPerMessage model.id with
  | none => none
  | some (tpm, tpn) =>
      some ((trimRev (fun s => counter s model.id) tpm tpn model.max_tokens 0
        messages.reverse).reverse)

/-- The `MODELS[model] except KeyError: MODELS["GPT-3.5"]` lookup of
`chat_completion` (openai_api.py lines 90-93); `none` embeds a `model=None`
argument, which also raises `KeyError`. -/
def lookupModelSetting (model : Option String) : OpenAIModel :=
  match model.bind (fun s => MODELS.lookup s) with
  | some om => om
  | none => ⟨"gpt-3.5-turbo", 4000, ["gpt-3.5-turbo-0301"]⟩

/-- The request payload `chat_completion` (openai_api.py lines 88-100) hands
to `openai.ChatCompletion.acreate`: the resolved model id together with the
trimmed message list, with no further checks in between. -/
def chat_completion_request (counter : String → String → Nat)
    (messages : List ChatMessage) (model : Option String) :
    Option (String × List ChatMessage) :=
  (build_messages_to_send counter messages (lookupModelSetting model)).map
    (fun ms => ((lookupModelSetting model).id, ms))

/-- Models Python's `str.lower()` used by `verify` (main.py line 465):
character-wise lower-casing, written via `List.map` so that it computes by
kernel reduction. -/
def lowercase (s : String) : String := ⟨s.data.map Char.toLower⟩

/-- The two disjoint membership sets `bot_data["authorized_users"]` and
`bot_data["banned_users"]` of `main.py`; user identifiers are Telegram
integer ids. -/
structure AccessRegistry where
  authorized : Finset Nat
  banned : Finset Nat
deriving DecidableEq

/-- The per-user authorization state used by `verify` (main.py): the
`auth_attempts` counter and the stored answer hash of the active challenge
(`user_data["verify"]["answer"]`, `none` when `user_data["verify"]` is
`None`). -/
structure AuthState where
  auth_attempts : Int
  verify : Option String
deriving DecidableEq

/-- The three ways the `verify` handler can conclude a submission: the
`CORRECT` branch, the `INCORRECT` branch (reporting attempts left), and the
`EXHAUSTED` branch that bans the user. -/
inductive VerifyOutcome
  | correct
  | incorrect (attemptsLeft : Int)
  | exhausted
deriving DecidableEq

/-- Embeds the `verify` handler (main.py lines 459-505).  The submitted text
is lower-cased and hashed, then compared with the stored hash; on a match the
user is added to `authorized` and discarded from `banned` and the challenge is
cleared; on a mismatch `auth_attempts` is decremented, and when it reaches 0
the user is added to `banned` and discarded from `authorized`.  `none` embeds
the `TypeError` Python would raise on `user_data["verify"]["answer"]` when no
challenge is active. -/
def verifyAnswer (h : String → String) (uid : Nat) (reg : AccessRegistry)
    (st : AuthState) (text : String) :
    Option (VerifyOutcome × AccessRegistry × AuthState) :=
  match st.verify with
  | none => none
  | some storedHash =>
    if h (lowercase text) = storedHash then
      some (VerifyOutcome.correct,
        ⟨insert uid reg.authorized, reg.banned.erase uid⟩,
        ⟨st.auth_attempts, none⟩)
    else
      let a := st.auth_attempts - 1
      if a = 0 then
        some (VerifyOutcome.exhausted,
          ⟨reg.authorized.erase uid, insert uid reg.banned⟩,
          ⟨a, st.verify⟩)
      else
        some (VerifyOutcome.incorrect a, reg, ⟨a, st.verify⟩)

/-- A question/answer entry of the `.verify.json` question bank. -/
structure QA where
  question : String
  answer : String
deriving DecidableEq

/-- Embeds the question-bank hashing comprehension of main.py lines 109-112:
every value under the `answer` key is replaced by `hash_data` of that value,
as written in the file — the answer is hashed exactly as it appears, with no
normalization applied. -/
def hashQuestionBank (h : String → String) (bank : List QA) : List QA :=
  bank.map (fun qa => ⟨qa.question, h qa.answer⟩)

/-- The states of `AccessRegistry` reachable through the code's own
authorization operations: the handlers initialize both sets empty, and the
only mutations anywhere in `main.py` are the ones performed inside the
`verify` handler (authorize on a correct answer, ban on exhausted
attempts). -/
inductive Reachable : AccessRegistry → Prop
  | init : Reachable ⟨∅, ∅⟩
  | step (h : String → String) (uid : Nat) (reg : AccessRegistry)
      (st : AuthState) (text : String) (out : VerifyOutcome)
      (reg2 : AccessRegistry) (st2 : AuthState) :
      Reachable reg →
      verifyAnswer h uid reg st text = some (out, reg2, st2) →
      Reachable reg2

/-- Embeds the message-history effect of `start_chat` (main.py lines
281-304): `user_data["messages"]` is cleared unconditionally, and when
`ctx.args` is non-empty one system message with content `" ".join(ctx.args)`
is appended. -/
def start_chat (args : List String) (prev : List ChatMessage) :
    List ChatMessage :=
  let cleared : List ChatMessage := []
  if args.isEmpty then cleared
  else cleared ++ [⟨"system", String.intercalate " " args, none⟩]

/-- Embeds the `user_data["messages"].append({"role": "user", "content":
update.message.text})` step of `ask_question` (main.py line 345). -/
def append_user_message (msgs : List ChatMessage) (content : String) :
    List ChatMessage :=
  msgs ++ [⟨"user", content, none⟩]

/-- Embeds the `user_data["messages"].pop()` rollback performed by
`ask_question` when the model call raises `OpenAIError` (main.py line
358). -/
def remove_last_message (msgs : List ChatMessage) : List ChatMessage :=
  msgs.dropLast

/-- The default `model` entry of the settings dict created by `start_chat`
and `enter_settings` (main.py line 278), which is not a key of `MODELS`. -/
def default_model_setting : String := "default"

/-- The summed per-message cost of a list of messages, with the same
overhead accounting as the trimming loop. -/
def sumCost (tc : String → Nat) (tpm tpn : Int) (l : List ChatMessage) : Int :=
  (l.map (messageCost tc tpm tpn)).sum

section TrimLemmas

variable (tc : String → Nat) (tpm tpn : Int) (maxTok : Nat)

/-- Closed form of the inner token-accounting loop: overhead, plus the token
counts of the `role` and `content` values, plus the name-value tokens and the
per-name adjustment when a `name` key is present. -/
lemma messageCost_eq (m : ChatMessage) :
    messageCost tc tpm tpn m =
      tpm + (tc m.role : Int) + (tc m.content : Int) +
        (match m.name with
         | some n => (tc n : Int) + tpn
         | none => 0) := by
  rcases m with ⟨r, c, n⟩
  cases n <;> simp [messageCost, ChatMessage.items] <;> ring

/-- For both model ids the dispatch can return, the per-message cost is
nonnegative (the worst case is `tokens_per_name = -1` against
`tokens_per_message = 4`). -/
lemma messageCost_nonneg {mid : String} (h : tokensPerMessage mid = some (tpm, tpn))
    (m : ChatMessage) : 0 ≤ messageCost tc tpm tpn m := by
  rw [messageCost_eq]
  unfold tokensPerMessage at h
  rcases m with ⟨r, c, n⟩
  split_ifs at h <;> simp only [Option.some.injEq, Prod.mk.injEq] at h <;>
    obtain ⟨rfl, rfl⟩ := h.symm <;> cases n <;> simp <;> omega

/-- The trimming loop returns an initial segment of its input. -/
lemma trimRev_append (cnt : Int) (l : List ChatMessage) :
    ∃ t, trimRev tc tpm tpn maxTok cnt l ++ t = l := by
  induction l generalizing cnt with
  | nil => exact ⟨[], rfl⟩
  | cons m rest ih =>
    rw [trimRev]
    split
    · exact ⟨m :: rest, rfl⟩
    · obtain ⟨t, ht⟩ := ih (cnt + messageCost tc tpm tpn m)
      exact ⟨t, by rw [List.cons_append, ht]⟩

/-- Soundness of the budget test: whenever the trimming loop keeps at least
`j + 1` messages, the running count after the `j`-th kept message passes the
budget test. -/
lemma trimRev_count_le (cnt : Int) (l : List ChatMessage) (j : Nat)
    (hj : j < (trimRev tc tpm tpn maxTok cnt l).length) :
    cnt + sumCost tc tpm tpn (l.take (j + 1)) + ((maxTok / 2 : Nat) : Int) ≤
      (maxTok : Int) := by
  induction l generalizing cnt j with
  | nil => simp [trimRev] at hj
  | cons m rest ih =>
    rw [trimRev] at hj
    split at hj
    case isTrue => simp at hj
    case isFalse hb =>
      push_neg at hb
      cases j with
      | zero => simpa [sumCost] using hb
      | succ k =>
        have hk := ih (cnt + messageCost tc tpm tpn m) k
          (by simp at hj; omega)
        have hs : sumCost tc tpm tpn ((m :: rest).take (k + 1 + 1)) =
            messageCost tc tpm tpn m + sumCost tc tpm tpn (rest.take (k + 1)) := by
          simp [sumCost]
        rw [hs]
        linarith

/-- Completeness of the budget test: if every running count up to the `j`-th
newest message passes the budget test, the loop keeps at least `j + 1`
messages. -/
lemma trimRev_length_gt (cnt : Int) (l : List ChatMessage) (j : Nat)
    (hjl : j < l.length)
    (hall : ∀ i, i ≤ j →
      cnt + sumCost tc tpm tpn (l.take (i + 1)) + ((maxTok / 2 : Nat) : Int) ≤
        (maxTok : Int)) :
    j < (trimRev tc tpm tpn maxTok cnt l).length := by
  induction l generalizing cnt j with
  | nil => simp at hjl
  | cons m rest ih =>
    rw [trimRev]
    split
    case isTrue hb =>
      exfalso
      have h0 := hall 0 (Nat.zero_le _)
      simp [sumCost] at h0
      omega
    case isFalse hb =>
      cases j with
      | zero => simp
      | succ k =>
        have hk : k < (trimRev tc tpm tpn maxTok
            (cnt + messageCost tc tpm tpn m) rest).length := by
          apply ih _ k (by simpa using hjl)
          intro i hi
          have hcall := hall (i + 1) (Nat.succ_le_succ hi)
          have ht : sumCost tc tpm tpn ((m :: rest).take (i + 1 + 1)) =
              messageCost tc tpm tpn m + sumCost tc tpm tpn (rest.take (i + 1)) := by
            simp [sumCost]
          rw [ht] at hcall
          linarith
        simp only [List.length_cons]
        omega

/-- Taking as many elements as the trimming loop kept recovers exactly the
kept messages. -/
lemma trimRev_take_eq (cnt : Int) (l : List ChatMessage) :
    l.take (trimRev tc tpm tpn maxTok cnt l).length =
      trimRev tc tpm tpn maxTok cnt l := by
  induction l generalizing cnt with
  | nil => simp [trimRev]
  | cons m rest ih =>
    rw [trimRev]
    split
    · simp
    · simp only [List.length_cons, List.take_succ_cons]
      rw [ih]

/-- Summed costs over a growing initial segment are monotone when every
per-message cost is nonnegative. -/
lemma sumCost_take_le (l : List ChatMessage)
    (h0 : ∀ m ∈ l, 0 ≤ messageCost tc tpm tpn m) {i j : Nat} (hij : i ≤ j) :
    sumCost tc tpm tpn (l.take i) ≤ sumCost tc tpm tpn (l.take j) := by
  obtain ⟨d, rfl⟩ := Nat.exists_eq_add_of_le hij
  rw [List.take_add]
  unfold sumCost
  rw [List.map_append, List.sum_append]
  have hd : 0 ≤ (((l.drop i).take d).map (messageCost tc tpm tpn)).sum := by
    apply List.sum_nonneg
    intro x hx
    obtain ⟨m, hm, rfl⟩ := List.mem_map.mp hx
    exact h0 m (List.drop_subset i l (List.take_subset d _ hm))
  linarith

/-- Reversing a message list does not change its summed cost. -/
lemma sumCost_reverse (l : List ChatMessage) :
    sumCost tc tpm tpn l.reverse = sumCost tc tpm tpn l := by
  unfold sumCost
  rw [List.map_reverse, List.sum_reverse]

end TrimLemmas

/-- C1: for every message sequence and model profile the dispatch recognizes,
trimming stops exactly at the budget test: the `j`-th newest message is kept
if and only if the running token count through that message plus
`max_tokens / 2` stays within `max_tokens`; consequently the summed counted
cost of the returned messages never exceeds `max_tokens`. -/
theorem C1_trim_budget (counter : String → String → Nat)
    (messages : List ChatMessage) (model : OpenAIModel) (tpm tpn : Int)
    (h : tokensPerMessage model.id = some (tpm, tpn)) :
    ∃ res, build_messages_to_send counter messages model = some res ∧
      (∀ j, j < messages.length →
        (j < res.length ↔
          sumCost (fun s => counter s model.id) tpm tpn
              (messages.reverse.take (j + 1)) +
            ((model.max_tokens / 2 : Nat) : Int) ≤ (model.max_tokens : Int))) ∧
      sumCost (fun s => counter s model.id) tpm tpn res ≤
        (model.max_tokens : Int) := by
  have hbuild : build_messages_to_send counter messages model =
      some ((trimRev (fun s => counter s model.id) tpm tpn model.max_tokens 0
        messages.reverse).reverse) := by
    rw [build_messages_to_send, h]
  refine ⟨_, hbuild, ?_, ?_⟩
  · intro j hj
    rw [List.length_reverse]
    constructor
    · intro hjr
      have hc := trimRev_count_le (fun s => counter s model.id) tpm tpn
        model.max_tokens 0 messages.reverse j hjr
      linarith
    · intro hS
      apply trimRev_length_gt (fun s => counter s model.id) tpm tpn
        model.max_tokens 0 messages.reverse j (by simpa using hj)
      intro i hi
      have hmono := sumCost_take_le (fun s => counter s model.id) tpm tpn
        messages.reverse
        (fun m _ => messageCost_nonneg (fun s => counter s model.id) tpm tpn h m)
        (Nat.succ_le_succ hi)
      linarith
  · rw [sumCost_reverse]
    rcases Nat.eq_zero_or_pos (trimRev (fun s => counter s model.id) tpm tpn
      model.max_tokens 0 messages.reverse).length with h0 | hpos
    · rw [List.length_eq_zero.mp h0]
      simpa [sumCost] using Int.natCast_nonneg model.max_tokens
    · have hc := trimRev_count_le (fun s => counter s model.id) tpm tpn
        model.max_tokens 0 messages.reverse
        ((trimRev (fun s => counter s model.id) tpm tpn model.max_tokens 0
          messages.reverse).length - 1) (Nat.sub_lt hpos one_pos)
      have hsucc : (trimRev (fun s => counter s model.id) tpm tpn
          model.max_tokens 0 messages.reverse).length - 1 + 1 =
          (trimRev (fun s => counter s model.id) tpm tpn model.max_tokens 0
            messages.reverse).length := by omega
      rw [hsucc, trimRev_take_eq] at hc
      have hhalf : (0 : Int) ≤ ((model.max_tokens / 2 : Nat) : Int) :=
        Int.natCast_nonneg _
      linarith

/-- Witness for C1 at a concrete input: a constant one-token counter, a
single short message and the GPT-3.5 profile. -/
theorem C1_trim_budget_witness :
    tokensPerMessage "gpt-3.5-turbo" = some (4, -1) ∧
    (∃ res, build_messages_to_send (fun _ _ => 1) [⟨"user", "hi", none⟩]
        ⟨"gpt-3.5-turbo", 4000, ["gpt-3.5-turbo-0301"]⟩ = some res ∧
      (∀ j, j < ([⟨"user", "hi", none⟩] : List ChatMessage).length →
        (j < res.length ↔
          sumCost (fun _ => 1) 4 (-1)
              (([⟨"user", "hi", none⟩] : List ChatMessage).reverse.take (j + 1)) +
            ((4000 / 2 : Nat) : Int) ≤ ((4000 : Nat) : Int))) ∧
      sumCost (fun _ => 1) 4 (-1) res ≤ ((4000 : Nat) : Int)) :=
  ⟨rfl, C1_trim_budget (fun _ _ => 1) [⟨"user", "hi", none⟩]
    ⟨"gpt-3.5-turbo", 4000, ["gpt-3.5-turbo-0301"]⟩ 4 (-1) rfl⟩

/-- C2: whatever list the trimmer returns is a contiguous suffix of the input
history, in the original chronological order. -/
theorem C2_trim_suffix (counter : String → String → Nat)
    (messages : List ChatMessage) (model : OpenAIModel)
    (res : List ChatMessage)
    (h : build_messages_to_send counter messages model = some res) :
    ∃ k, res = messages.drop k := by
  rw [build_messages_to_send] at h
  rcases hd : tokensPerMessage model.id with _ | ⟨tpm, tpn⟩
  · rw [hd] at h
    exact absurd h (by simp)
  · rw [hd] at h
    simp only [Option.some.injEq] at h
    obtain ⟨t, ht⟩ := trimRev_append (fun s => counter s model.id) tpm tpn
      model.max_tokens 0 messages.reverse
    have hm : messages = t.reverse ++ res := by
      have hrev := congrArg List.reverse ht
      rw [List.reverse_append, List.reverse_reverse] at hrev
      rw [← hrev, ← h]
    exact ⟨t.reverse.length, by rw [hm, List.drop_left]⟩

/-- Witness for C2 at a concrete input: trimming a one-message history with
a constant one-token counter returns that history, which is its own suffix. -/
theorem C2_trim_suffix_witness :
    build_messages_to_send (fun _ _ => 1) [⟨"user", "hi", none⟩]
        ⟨"gpt-3.5-turbo", 4000, ["gpt-3.5-turbo-0301"]⟩ =
      some [⟨"user", "hi", none⟩] ∧
    ∃ k, ([⟨"user", "hi", none⟩] : List ChatMessage) =
      ([⟨"user", "hi", none⟩] : List ChatMessage).drop k :=
  ⟨rfl, C2_trim_suffix (fun _ _ => 1) [⟨"user", "hi", none⟩]
    ⟨"gpt-3.5-turbo", 4000, ["gpt-3.5-turbo-0301"]⟩ [⟨"user", "hi", none⟩] rfl⟩

/-- The model resolved by `chat_completion` is always one of the two `MODELS`
entries, so the token dispatch always recognizes its id. -/
lemma lookupModelSetting_known (model : Option String) :
    tokensPerMessage (lookupModelSetting model).id = some (4, -1) ∨
    tokensPerMessage (lookupModelSetting model).id = some (3, 1) := by
  rcases model with _ | s
  · left; rfl
  · by_cases h1 : s = "GPT-3.5"
    · subst h1; left; rfl
    · by_cases h2 : s = "GPT-4"
      · subst h2; right; rfl
      · have hb1 : (s == "GPT-3.5") = false := beq_eq_false_iff_ne.mpr h1
        have hb2 : (s == "GPT-4") = false := beq_eq_false_iff_ne.mpr h2
        have hl : MODELS.lookup s = none := by
          unfold MODELS
          rw [List.lookup, List.lookup]
          rw [hb1, hb2]
          rfl
        left
        simp only [lookupModelSetting, Option.some_bind, hl]
        rfl

/-- The request `chat_completion` assembles always exists and carries exactly
the trimmed history, with no guard in between: the trimmer's output list is
handed to the API verbatim, empty or not. -/
lemma chat_completion_request_eq (counter : String → String → Nat)
    (messages : List ChatMessage) (model : Option String) :
    ∃ ms, build_messages_to_send counter messages (lookupModelSetting model) =
        some ms ∧
      chat_completion_request counter messages model =
        some ((lookupModelSetting model).id, ms) := by
  rcases lookupModelSetting_known model with h | h <;>
    exact ⟨_, by rw [build_messages_to_send, h],
      by rw [chat_completion_request, build_messages_to_send, h]; rfl⟩

/-- Counterexample for C7: a non-empty one-message history whose single
message already fails the budget test trims to the empty list, and
`chat_completion` still assembles a zero-message request instead of raising
any error. -/
theorem C7_counterexample :
    ([⟨"user", "hi", none⟩] : List ChatMessage) ≠ [] ∧
    build_messages_to_send (fun _ _ => 5000) [⟨"user", "hi", none⟩]
      (lookupModelSetting none) = some [] ∧
    chat_completion_request (fun _ _ => 5000) [⟨"user", "hi", none⟩] none =
      some ("gpt-3.5-turbo", []) :=
  ⟨by simp, rfl, rfl⟩

/-- C7 amended: the request path performs no empty-history check at all — for
every counter, history and model setting, `chat_completion` sends a request
containing exactly the trimmed list, even when that list is empty; no
`HistoryTooLarge` error kind exists in the code. -/
theorem C7_no_empty_guard (counter : String → String → Nat)
    (messages : List ChatMessage) (model : Option String) :
    ∃ ms, build_messages_to_send counter messages (lookupModelSetting model) =
        some ms ∧
      chat_completion_request counter messages model =
        some ((lookupModelSetting model).id, ms) :=
  chat_completion_request_eq counter messages model

/-- The per-message increment as the claim words it: overhead plus the
token count of the `content` string, plus the per-name adjustment when a
`name` field is present — and nothing else.  Stated for comparison with
`messageCost`, which is taken from the source. -/
def messageCostClaimed (tc : String → Nat) (tpm tpn : Int) (m : ChatMessage) :
    Int :=
  tpm + (tc m.content : Int) +
    (match m.name with
     | some _ => tpn
     | none => 0)

/-- Counterexample for C8: with the token counter returning string lengths,
the message `{role: "user", content: "hi"}` costs 10 in the code (the role
value is counted) but 6 per the claim; with `max_tokens = 13` the code
therefore drops the message even though the claim's accounting would keep
it. -/
theorem C8_counterexample :
    messageCost (fun s => s.length) 4 (-1) ⟨"user", "hi", none⟩ ≠
      messageCostClaimed (fun s => s.length) 4 (-1) ⟨"user", "hi", none⟩ ∧
    build_messages_to_send (fun s _ => s.length) [⟨"user", "hi", none⟩]
      ⟨"gpt-3.5-turbo", 13, []⟩ = some [] ∧
    messageCostClaimed (fun s => s.length) 4 (-1) ⟨"user", "hi", none⟩ +
      ((13 / 2 : Nat) : Int) ≤ ((13 : Nat) : Int) :=
  ⟨by decide, rfl, by decide⟩

/-- C8 amended: for every candidate message the running count increases by
exactly the per-message overhead plus the token counts of all of the
message's field values — role, content, and the name value when present —
plus the per-name adjustment when a name field is present. -/
theorem C8_running_count (tc : String → Nat) (tpm tpn : Int) (m : ChatMessage) :
    messageCost tc tpm tpn m =
      tpm + (tc m.role : Int) + (tc m.content : Int) +
        (match m.name with
         | some n => (tc n : Int) + tpn
         | none => 0) :=
  messageCost_eq tc tpm tpn m

/-- C10: the request path never raises the unknown-model error — an
unrecognized or absent model setting (including the default value
`"default"`) silently resolves to the GPT-3.5 profile, and the request is
always assembled. -/
theorem C10_unknown_model (counter : String → String → Nat)
    (messages : List ChatMessage) (model : Option String) :
    ((∀ s, model = some s → MODELS.lookup s = none) →
      lookupModelSetting model =
        ⟨"gpt-3.5-turbo", 4000, ["gpt-3.5-turbo-0301"]⟩) ∧
    (chat_completion_request counter messages model).isSome = true := by
  constructor
  · intro hunk
    rcases model with _ | s
    · rfl
    · have hl := hunk s rfl
      simp [lookupModelSetting, hl]
  · obtain ⟨ms, -, hr⟩ := chat_completion_request_eq counter messages model
    rw [hr]
    rfl

/-- Witness for C10 at the concrete default setting value `"default"`, which
is not a key of `MODELS`. -/
theorem C10_unknown_model_witness :
    lookupModelSetting (some default_model_setting) =
      ⟨"gpt-3.5-turbo", 4000, ["gpt-3.5-turbo-0301"]⟩ ∧
    (chat_completion_request (fun _ _ => 1) [] (some default_model_setting)).isSome
      = true :=
  ⟨(C10_unknown_model (fun _ _ => 1) [] (some default_model_setting)).1
      (fun s hs => by cases hs; rfl),
    (C10_unknown_model (fun _ _ => 1) [] (some default_model_setting)).2⟩

/-- Adding a user to one set while discarding it from the other preserves
disjointness of the two sets. -/
lemma insert_erase_inter_empty {A B : Finset Nat} (uid : Nat)
    (hAB : A ∩ B = ∅) : (insert uid A) ∩ (B.erase uid) = ∅ := by
  rw [Finset.eq_empty_iff_forall_not_mem] at hAB ⊢
  intro x hx
  rw [Finset.mem_inter, Finset.mem_insert, Finset.mem_erase] at hx
  rcases hx.1 with rfl | hxa
  · exact hx.2.1 rfl
  · exact hAB x (Finset.mem_inter.mpr ⟨hxa, hx.2.2⟩)

/-- C3: evaluation of the code at the failing input.  The question bank entry
`{question: "Q1", answer: "A1"}` is stored with the hash of the raw string
`"A1"` (no lower-casing at storage time), while `verify` hashes the
lower-cased submission; hence, for any hash without a collision between
`"a1"` and `"A1"`, submitting `"a1"` is rejected as INCORRECT rather than
accepted as CORRECT. -/
theorem C3_storage_not_lowercased (h : String → String)
    (hne : h "a1" ≠ h "A1") (uid : Nat) (reg : AccessRegistry) :
    hashQuestionBank h [⟨"Q1", "A1"⟩] = [⟨"Q1", h "A1"⟩] ∧
    verifyAnswer h uid reg ⟨3, some (h "A1")⟩ "a1" =
      some (VerifyOutcome.incorrect 2, reg, ⟨2, some (h "A1")⟩) := by
  refine ⟨rfl, ?_⟩
  have hne2 : h (lowercase "a1") ≠ h "A1" := by
    rw [show lowercase "a1" = "a1" from rfl]
    exact hne
  norm_num [verifyAnswer, hne2]

/-- Witness for C3 with the identity function standing in for the
collision-free hash. -/
theorem C3_storage_not_lowercased_witness :
    hashQuestionBank id [⟨"Q1", "A1"⟩] = [⟨"Q1", id "A1"⟩] ∧
    verifyAnswer id 7 ⟨∅, ∅⟩ ⟨3, some (id "A1")⟩ "a1" =
      some (VerifyOutcome.incorrect 2, ⟨∅, ∅⟩, ⟨2, some (id "A1")⟩) :=
  C3_storage_not_lowercased id (by decide) 7 ⟨∅, ∅⟩

/-- C4: under an active challenge, each wrong answer decrements
`auth_attempts` by exactly 1; three consecutive wrong answers starting from a
fresh challenge (3 attempts) produce INCORRECT(2), INCORRECT(1) and then
EXHAUSTED, after which the user is in the banned set and not in the
authorized set. -/
theorem C4_attempt_countdown (h : String → String) (uid : Nat)
    (reg : AccessRegistry) (stored t1 t2 t3 : String)
    (hw1 : h (lowercase t1) ≠ stored) (hw2 : h (lowercase t2) ≠ stored)
    (hw3 : h (lowercase t3) ≠ stored) :
    verifyAnswer h uid reg ⟨3, some stored⟩ t1 =
      some (VerifyOutcome.incorrect 2, reg, ⟨2, some stored⟩) ∧
    verifyAnswer h uid reg ⟨2, some stored⟩ t2 =
      some (VerifyOutcome.incorrect 1, reg, ⟨1, some stored⟩) ∧
    verifyAnswer h uid reg ⟨1, some stored⟩ t3 =
      some (VerifyOutcome.exhausted,
        ⟨reg.authorized.erase uid, insert uid reg.banned⟩, ⟨0, some stored⟩) ∧
    uid ∈ insert uid reg.banned ∧ uid ∉ reg.authorized.erase uid ∧
    (∀ (st : AuthState) (r : AccessRegistry) (t sh : String),
      st.verify = some sh → h (lowercase t) ≠ sh →
      ∃ out r2 st2, verifyAnswer h uid r st t = some (out, r2, st2) ∧
        st2.auth_attempts = st.auth_attempts - 1) := by
  refine ⟨?_, ?_, ?_, Finset.mem_insert_self uid reg.banned,
    Finset.not_mem_erase uid reg.authorized, ?_⟩
  · norm_num [verifyAnswer, hw1]
  · norm_num [verifyAnswer, hw2]
  · norm_num [verifyAnswer, hw3]
  · intro st r t sh hv hw
    rw [verifyAnswer, hv]
    simp only [hw, if_false, ite_false]
    by_cases ha : st.auth_attempts - 1 = 0
    · exact ⟨VerifyOutcome.exhausted,
        ⟨r.authorized.erase uid, insert uid r.banned⟩,
        ⟨st.auth_attempts - 1, some sh⟩, by rw [if_pos ha, ha], rfl⟩
    · exact ⟨VerifyOutcome.incorrect (st.auth_attempts - 1), r,
        ⟨st.auth_attempts - 1, some sh⟩, by rw [if_neg ha], rfl⟩

/-- Witness for C4: the identity hash, stored secret `"secret"`, and the
wrong submission `"wrong"` given three times by user 7 starting from empty
registries. -/
theorem C4_attempt_countdown_witness :
    verifyAnswer id 7 ⟨∅, ∅⟩ ⟨3, some "secret"⟩ "wrong" =
      some (VerifyOutcome.incorrect 2, ⟨∅, ∅⟩, ⟨2, some "secret"⟩) ∧
    verifyAnswer id 7 ⟨∅, ∅⟩ ⟨2, some "secret"⟩ "wrong" =
      some (VerifyOutcome.incorrect 1, ⟨∅, ∅⟩, ⟨1, some "secret"⟩) ∧
    verifyAnswer id 7 ⟨∅, ∅⟩ ⟨1, some "secret"⟩ "wrong" =
      some (VerifyOutcome.exhausted,
        ⟨(∅ : Finset Nat).erase 7, insert 7 (∅ : Finset Nat)⟩,
        ⟨0, some "secret"⟩) ∧
    7 ∈ insert 7 (∅ : Finset Nat) ∧ 7 ∉ (∅ : Finset Nat).erase 7 ∧
    (∀ (st : AuthState) (r : AccessRegistry) (t sh : String),
      st.verify = some sh → id (lowercase t) ≠ sh →
      ∃ out r2 st2, verifyAnswer id 7 r st t = some (out, r2, st2) ∧
        st2.auth_attempts = st.auth_attempts - 1) :=
  C4_attempt_countdown id 7 ⟨∅, ∅⟩ "secret" "wrong" "wrong" "wrong"
    (by decide) (by decide) (by decide)

/-- C5: in every state of the access registry reachable through the code's
authorization operations, the authorized set and the banned set are
disjoint. -/
theorem C5_authorized_banned_disjoint (reg : AccessRegistry)
    (hr : Reachable reg) : reg.authorized ∩ reg.banned = ∅ := by
  induction hr with
  | init => simp
  | step h uid r st text out reg2 st2 hreach heq ih =>
    rcases st with ⟨att, _ | sh⟩
    · exact absurd heq (by rw [verifyAnswer]; simp)
    · rw [verifyAnswer] at heq
      simp only [] at heq
      split_ifs at heq with hc ha
      · simp only [Option.some.injEq, Prod.mk.injEq] at heq
        rw [← heq.2.1]
        exact insert_erase_inter_empty uid ih
      · simp only [Option.some.injEq, Prod.mk.injEq] at heq
        rw [← heq.2.1]
        rw [Finset.inter_comm]
        exact insert_erase_inter_empty uid (by rw [Finset.inter_comm]; exact ih)
      · simp only [Option.some.injEq, Prod.mk.injEq] at heq
        rw [← heq.2.1]
        exact ih

/-- Witness for C5 at the initial reachable state: both sets empty. -/
theorem C5_authorized_banned_disjoint_witness :
    (AccessRegistry.mk ∅ ∅).authorized ∩ (AccessRegistry.mk ∅ ∅).banned = ∅ :=
  C5_authorized_banned_disjoint ⟨∅, ∅⟩ Reachable.init

/-- C6: popping the last message after appending a user message restores the
history exactly as it was before the append; in particular, after starting a
chat primed with "be a pirate", appending "hello" and rolling back leaves
exactly the single system message. -/
theorem C6_rollback_on_failure :
    (∀ (msgs : List ChatMessage) (content : String),
      remove_last_message (append_user_message msgs content) = msgs) ∧
    (∀ prev : List ChatMessage,
      remove_last_message (append_user_message
          (start_chat ["be", "a", "pirate"] prev) "hello") =
        [⟨"system", "be a pirate", none⟩]) := by
  constructor
  · intro msgs content
    rw [append_user_message, remove_last_message, List.dropLast_concat]
  · intro prev
    rfl

/-- C9: starting a chat always leaves at most one message, independently of
whatever history had accumulated before: no message when no priming argument
is given, and exactly one system message carrying the joined priming words
otherwise. -/
theorem C9_session_reset (prev : List ChatMessage) (args : List String) :
    (start_chat args prev).length ≤ 1 ∧
    (∀ prev2 : List ChatMessage, start_chat args prev = start_chat args prev2) ∧
    (args = [] → start_chat args prev = []) ∧
    (args ≠ [] →
      start_chat args prev =
        [⟨"system", String.intercalate " " args, none⟩]) := by
  refine ⟨?_, fun prev2 => rfl, ?_, ?_⟩
  · cases args <;> simp [start_chat]
  · intro ha
    subst ha
    rfl
  · intro ha
    cases args with
    | nil => exact absurd rfl ha
    | cons a as => simp [start_chat]

/-- Witness for C9: starting over a non-empty prior history with the priming
words "be a pirate" leaves exactly one system message. -/
theorem C9_session_reset_witness :
    start_chat ["be", "a", "pirate"] [⟨"user", "old", none⟩] =
      [⟨"system", "be a pirate", none⟩] :=
  (C9_session_reset [⟨"user", "old", none⟩] ["be", "a", "pirate"]).2.2.2
    (by simp)

end TelegramChatGPT
